import Mathlib

/-!
Shallow embedding of the confirm-intent payment operation
(`crates/router/src/core/payments/operations/payment_confirm_intent.rs`)
and of the payment-method create validation
(`crates/router/src/types/api/payment_methods.rs`), with theorems checking
the specification's claims about them.

Storage effects are made explicit: every pipeline stage takes a `Store`
and returns the (possibly unchanged) `Store` next to its `Except` result,
so frame properties ("no write happened") are provable.
-/

namespace ConfirmIntent

/-- Merchant storage scheme (`storage_enums::MerchantStorageScheme`);
selects the persistence backend and is recorded in `updated_by`. -/
inductive MerchantStorageScheme where
  | PostgresOnly
  | RedisKv
deriving DecidableEq, Repr

/-- Modelled from the spec: the `Display`/`to_string` rendering of the
storage scheme, used for the `updated_by` audit tag (the enum's string
impl is outside the shown sources). -/
def MerchantStorageScheme.toStr : MerchantStorageScheme → String
  | .PostgresOnly => "postgres_only"
  | .RedisKv => "redis_kv"

/-- Payment-intent status (`common_enums::IntentStatus`), the values the
spec's lifecycle graph names. -/
inductive IntentStatus where
  | RequiresPaymentMethod
  | RequiresConfirmation
  | Processing
  | Succeeded
  | Failed
  | RequiresCapture
  | Cancelled
deriving DecidableEq, Repr

/-- Payment-attempt status (`common_enums::AttemptStatus`), the values the
spec's lifecycle graph names. -/
inductive AttemptStatus where
  | Started
  | Pending
  | Charged
  | Failure
  | AuthenticationPending
deriving DecidableEq, Repr

/-- Intent amount details: order amount in minor units plus currency
(`payment_intent.amount_details`). -/
structure AmountDetails where
  order_amount : Int
  currency : String
deriving DecidableEq, Repr

/-- `hyperswitch_domain_models::payments::payment_attempt::AttemptAmountDetails`,
exactly the fields set in `create_domain_model_from_request`. -/
structure AttemptAmountDetails where
  net_amount : Int
  amount_to_capture : Option Int
  surcharge_amount : Option Int
  tax_on_surcharge : Option Int
  amount_capturable : Int
  shipping_cost : Option Int
  order_tax_amount : Option Int
deriving DecidableEq, Repr

/-- The payment intent (`hyperswitch_domain_models::payments::PaymentIntent`),
restricted to the fields the confirm-intent operation reads or updates. -/
structure PaymentIntent where
  id : String
  merchant_id : String
  profile_id : String
  organization_id : String
  amount_details : AmountDetails
  authentication_type : Option String
  status : IntentStatus
  updated_by : String
deriving DecidableEq, Repr

/-- The payment attempt
(`hyperswitch_domain_models::payments::payment_attempt::PaymentAttempt`):
every field assigned by `create_domain_model_from_request`, with opaque
payload types rendered as `String`. -/
structure PaymentAttempt where
  payment_id : String
  merchant_id : String
  amount_details : AttemptAmountDetails
  status : AttemptStatus
  connector : Option String
  authentication_type : Option String
  created_at : Nat
  modified_at : Nat
  last_synced : Option Nat
  cancellation_reason : Option String
  browser_info : Option String
  payment_token : Option String
  connector_metadata : Option String
  payment_experience : Option String
  payment_method_data : Option String
  routing_result : Option String
  preprocessing_step_id : Option String
  multiple_capture_count : Option Int
  connector_response_reference_id : Option String
  updated_by : String
  authentication_data : Option String
  encoded_data : Option String
  merchant_connector_id : Option String
  external_three_ds_authentication_attempted : Option Bool
  authentication_connector : Option String
  authentication_id : Option String
  fingerprint_id : Option String
  charge_id : Option String
  client_source : Option String
  client_version : Option String
  customer_acceptance : Option String
  profile_id : String
  organization_id : String
  payment_method_type : Option String
  payment_method_id : Option String
  connector_payment_id : Option String
  payment_method_subtype : Option String
  authentication_applied : Option String
  external_reference_id : Option String
  payment_method_billing_address : Option String
  error : Option String
  id : String
deriving DecidableEq, Repr

/-- `PaymentIntentUpdate` delta variants: only `ConfirmIntent` is built by
this operation, carrying the new status and the `updated_by` tag. -/
inductive PaymentIntentUpdate where
  | ConfirmIntent (status : IntentStatus) (updated_by : String)
deriving DecidableEq, Repr

/-- `PaymentAttemptUpdate` delta variants: only `ConfirmIntent` is built by
this operation, carrying status, `updated_by`, connector and
merchant-connector id (the latter two non-optional in the delta). -/
inductive PaymentAttemptUpdate where
  | ConfirmIntent (status : AttemptStatus) (updated_by : String)
      (connector : String) (merchant_connector_id : String)
deriving DecidableEq, Repr

/-- The API error taxonomy (`errors::ApiErrorResponse`), restricted to the
variants these sources produce. -/
inductive ApiErrorResponse where
  | PaymentNotFound
  | ProfileNotFound (id : String)
  | InternalServerError
  | MissingRequiredField (field_name : String)
  | InvalidRequestData (message : String)
deriving DecidableEq, Repr

/-- Modelled from the spec: `OptionExt::get_required_value` (defined in the
crate's utils, outside the shown sources) returns the value or fails with a
required-value (`MissingRequiredField`) error naming the field. -/
def get_required_value (v : Option α) (field_name : String) :
    Except ApiErrorResponse α :=
  match v with
  | some x => Except.ok x
  | none => Except.error (ApiErrorResponse.MissingRequiredField field_name)

/-- Cell information from configuration (`state.conf.cell_information`). -/
structure CellInformation where
  id : String
deriving DecidableEq, Repr

/-- The slice of configuration the operation reads. -/
structure Conf where
  cell_information : CellInformation
deriving DecidableEq, Repr

/-- The slice of `SessionState` the operation reads: configuration plus the
current time (`common_utils::date_time::now()` is drawn from here so the
embedding stays pure). -/
structure SessionState where
  conf : Conf
  now : Nat
deriving DecidableEq, Repr

/-- Modelled from the spec: `GlobalAttemptId::generate(&cell_id)` creates a
fresh attempt id namespaced to the configured cell (the generator lives in
`common_utils`, outside the shown sources). -/
def GlobalAttemptId.generate (cell_id : String) : String :=
  cell_id ++ "_att_1"

/-- Merchant account: id and the storage scheme carried through the run. -/
structure MerchantAccount where
  id : String
  storage_scheme : MerchantStorageScheme
deriving DecidableEq, Repr

/-- `MerchantAccount::get_id`. -/
def MerchantAccount.get_id (ma : MerchantAccount) : String := ma.id

/-- `operations::ValidateResult`: merchant id, storage scheme for this run,
and the requeue flag. -/
structure ValidateResult where
  merchant_id : String
  storage_scheme : MerchantStorageScheme
  requeue : Bool
deriving DecidableEq, Repr

/-- The payment-method data carried in the confirm request
(`request.payment_method_data.payment_method_data`), opaque here. -/
structure PaymentMethodDataRequest where
  payment_method_data : String
deriving DecidableEq, Repr

/-- `api_models::payments::PaymentsConfirmIntentRequest`, restricted to the
fields this operation reads. -/
structure PaymentsConfirmIntentRequest where
  payment_method_type : Option String
  payment_method_subtype : Option String
  payment_method_data : PaymentMethodDataRequest
deriving DecidableEq, Repr

/-- Domain payment-method data produced by the `From` conversion applied to
the request's payment-method data. -/
structure DomainPaymentMethodData where
  raw : String
deriving DecidableEq, Repr

/-- The `PaymentMethodData::from` conversion on the request payload (the
conversion lives in the domain-models crate; it is payload reshaping only,
kept opaque here). -/
def DomainPaymentMethodData.from (r : PaymentMethodDataRequest) :
    DomainPaymentMethodData :=
  ⟨r.payment_method_data⟩

/-- `PaymentConfirmData`: the operation-data bundle for the confirm flow. -/
structure PaymentConfirmData where
  payment_intent : PaymentIntent
  payment_attempt : PaymentAttempt
  payment_method_data : Option DomainPaymentMethodData
deriving DecidableEq, Repr

/-- Customer context; the confirm variant never produces one, so the type
stays opaque. -/
structure Customer where
  id : String
deriving DecidableEq, Repr

/-- `create_domain_model_from_request` (the `PaymentsConfirmIntentBridge`
impl for `PaymentsConfirmIntentRequest`): builds a brand-new attempt for the
given intent. The source's fallible signature never fails on this path, so
the embedding returns the attempt directly. -/
def create_domain_model_from_request (request : PaymentsConfirmIntentRequest)
    (state : SessionState) (payment_intent : PaymentIntent)
    (storage_scheme : MerchantStorageScheme) : PaymentAttempt :=
  let now := state.now
  let cell_id := state.conf.cell_information.id
  let id := GlobalAttemptId.generate cell_id
  let intent_amount_details := payment_intent.amount_details
  let attempt_amount_details : AttemptAmountDetails :=
    { net_amount := intent_amount_details.order_amount
      amount_to_capture := none
      surcharge_amount := none
      tax_on_surcharge := none
      amount_capturable := 0
      shipping_cost := none
      order_tax_amount := none }
  { payment_id := payment_intent.id
    merchant_id := payment_intent.merchant_id
    amount_details := attempt_amount_details
    status := AttemptStatus.Started
    connector := none
    authentication_type := payment_intent.authentication_type
    created_at := now
    modified_at := now
    last_synced := none
    cancellation_reason := none
    browser_info := none
    payment_token := none
    connector_metadata := none
    payment_experience := none
    payment_method_data := none
    routing_result := none
    preprocessing_step_id := none
    multiple_capture_count := none
    connector_response_reference_id := none
    updated_by := storage_scheme.toStr
    authentication_data := none
    encoded_data := none
    merchant_connector_id := none
    external_three_ds_authentication_attempted := none
    authentication_connector := none
    authentication_id := none
    fingerprint_id := none
    charge_id := none
    client_source := none
    client_version := none
    customer_acceptance := none
    profile_id := payment_intent.profile_id
    organization_id := payment_intent.organization_id
    payment_method_type := request.payment_method_type
    payment_method_id := none
    connector_payment_id := none
    payment_method_subtype := request.payment_method_subtype
    authentication_applied := none
    external_reference_id := none
    payment_method_billing_address := none
    error := none
    id := id }

/-- Modelled from the spec: the Storage Access Layer state. Intents and
profiles are keyed tables; attempts accumulate inserts; the two update
logs record every conditional-update call (prior entity + delta) issued
through the layer, so frame properties are provable. -/
structure Store where
  intents : List (String × PaymentIntent)
  attempts : List PaymentAttempt
  profiles : List String
  intent_update_log : List (PaymentIntent × PaymentIntentUpdate)
  attempt_update_log : List (PaymentAttempt × PaymentAttemptUpdate)
deriving DecidableEq, Repr

/-- Modelled from the spec: `find_payment_intent_by_id` — find by id or
not-found. -/
def Store.find_payment_intent_by_id (s : Store) (payment_id : String) :
    Option PaymentIntent :=
  (s.intents.find? (fun p => p.1 = payment_id)).map Prod.snd

/-- Modelled from the spec: `insert_payment_attempt` — the unconditional
insert of a new attempt row, returning the persisted attempt. -/
def Store.insert_payment_attempt (s : Store) (attempt : PaymentAttempt) :
    PaymentAttempt × Store :=
  (attempt, { s with attempts := attempt :: s.attempts })

/-- Modelled from the spec: `find_business_profile_by_profile_id` — profile
lookup, not-found when absent. -/
def Store.find_business_profile_by_profile_id (s : Store)
    (profile_id : String) : Option String :=
  s.profiles.find? (fun p => p = profile_id)

/-- Modelled from the spec: applying a `ConfirmIntent` intent delta sets the
status and the `updated_by` tag (the delta-application lives in the storage
crates, outside the shown sources). -/
def applyPaymentIntentUpdate (intent : PaymentIntent)
    (upd : PaymentIntentUpdate) : PaymentIntent :=
  match upd with
  | .ConfirmIntent status updated_by =>
      { intent with status := status, updated_by := updated_by }

/-- Modelled from the spec: applying a `ConfirmIntent` attempt delta sets
the status, the `updated_by` tag, and both routing fields to `some`. -/
def applyPaymentAttemptUpdate (attempt : PaymentAttempt)
    (upd : PaymentAttemptUpdate) : PaymentAttempt :=
  match upd with
  | .ConfirmIntent status updated_by connector merchant_connector_id =>
      { attempt with
          status := status
          updated_by := updated_by
          connector := some connector
          merchant_connector_id := some merchant_connector_id }

/-- Modelled from the spec: `update_payment_intent` — conditional update of
the intent keyed on the caller's prior version; the call is recorded in the
intent update log and the post-update row is returned. -/
def Store.update_payment_intent (s : Store) (prior : PaymentIntent)
    (upd : PaymentIntentUpdate) : PaymentIntent × Store :=
  let updated := applyPaymentIntentUpdate prior upd
  (updated,
    { s with
        intents := s.intents.map
          (fun p => if p.1 = prior.id then (p.1, updated) else p)
        intent_update_log := (prior, upd) :: s.intent_update_log })

/-- Modelled from the spec: `update_payment_attempt` — conditional update of
the attempt keyed on the caller's prior version; the call is recorded in the
attempt update log and the post-update row is returned. -/
def Store.update_payment_attempt (s : Store) (prior : PaymentAttempt)
    (upd : PaymentAttemptUpdate) : PaymentAttempt × Store :=
  let updated := applyPaymentAttemptUpdate prior upd
  (updated,
    { s with
        attempts := s.attempts.map
          (fun a => if a.id = prior.id then updated else a)
        attempt_update_log := (prior, upd) :: s.attempt_update_log })

/-- `GetTrackerResponse`: the tracker-stage output bundle (the boxed
operation pointer of the source carries no data and is omitted). -/
structure GetTrackerResponse where
  customer_details : Option Customer
  payment_data : PaymentConfirmData
  mandate_type : Option String
deriving DecidableEq, Repr

/-- `validate_request` for `PaymentsIntentConfirm`: always succeeds,
returning the merchant id, the account's storage scheme, and
`requeue = false`. -/
def validate_request (_request : PaymentsConfirmIntentRequest)
    (merchant_account : MerchantAccount) :
    Except ApiErrorResponse ValidateResult :=
  Except.ok
    { merchant_id := merchant_account.get_id
      storage_scheme := merchant_account.storage_scheme
      requeue := false }

/-- `get_trackers` for `PaymentsIntentConfirm`: find the intent (not-found
error when absent), build and insert a brand-new attempt, look up the
business profile, and assemble the operation-data bundle. Storage effects
survive an error, so the store is returned beside the `Except`. -/
def get_trackers (store : Store) (state : SessionState)
    (payment_id : String) (request : PaymentsConfirmIntentRequest)
    (merchant_account : MerchantAccount) :
    Except ApiErrorResponse GetTrackerResponse × Store :=
  let storage_scheme := merchant_account.storage_scheme
  match store.find_payment_intent_by_id payment_id with
  | none => (Except.error ApiErrorResponse.PaymentNotFound, store)
  | some payment_intent =>
    let payment_attempt_domain_model :=
      create_domain_model_from_request request state payment_intent
        storage_scheme
    let (payment_attempt, store) :=
      store.insert_payment_attempt payment_attempt_domain_model
    let profile_id := payment_intent.profile_id
    match store.find_business_profile_by_profile_id profile_id with
    | none => (Except.error (ApiErrorResponse.ProfileNotFound profile_id),
        store)
    | some _profile =>
      let payment_method_data :=
        DomainPaymentMethodData.from request.payment_method_data
      let payment_data : PaymentConfirmData :=
        { payment_intent := payment_intent
          payment_attempt := payment_attempt
          payment_method_data := some payment_method_data }
      (Except.ok
        { customer_details := none
          payment_data := payment_data
          mandate_type := none }, store)

/-- `get_customer_details` for the confirm variant's `Domain` impl: returns
no customer and leaves the bundle and the store untouched. -/
def get_customer_details (payment_data : PaymentConfirmData) (store : Store) :
    Except ApiErrorResponse (PaymentConfirmData × Store × Option Customer) :=
  Except.ok (payment_data, store, none)

/-- `make_pm_data` for the confirm variant's `Domain` impl: returns no
payment-method data and no token, leaving the bundle and the store
untouched. -/
def make_pm_data (payment_data : PaymentConfirmData) (store : Store) :
    Except ApiErrorResponse
      (PaymentConfirmData × Store × Option DomainPaymentMethodData ×
        Option String) :=
  Except.ok (payment_data, store, none, none)

/-- Outcome of a connector-selection call: a returned choice, a returned
error, or a Rust panic aborting the task. -/
inductive ConnectorCallOutcome (α : Type) where
  | ok (choice : α)
  | error (e : ApiErrorResponse)
  | panicked (message : String)
deriving DecidableEq, Repr

/-- `get_connector` for the confirm variant's `Domain` impl: the body is
`todo!()`, a panic with the standard "not yet implemented" message; no
error value is returned. -/
def get_connector (_request : PaymentsConfirmIntentRequest)
    (_payment_intent : PaymentIntent) : ConnectorCallOutcome String :=
  ConnectorCallOutcome.panicked "not yet implemented"

/-- Whether a connector-selection outcome is a returned error value (as
opposed to a success or a panic). -/
def ConnectorCallOutcome.isReturnedError : ConnectorCallOutcome α → Bool
  | .error _ => true
  | _ => false

/-- `update_trackers` for `PaymentsIntentConfirm`: require connector and
merchant-connector id, build the `ConfirmIntent` deltas (intent to
`Processing`, attempt to `Pending`, both tagged with the storage scheme),
apply them through the storage layer in that order, and return the bundle
holding the post-update rows. Failures happen before any storage call, so
the store passes through unchanged on the error path. -/
def update_trackers (store : Store) (payment_data : PaymentConfirmData)
    (storage_scheme : MerchantStorageScheme) :
    Except ApiErrorResponse PaymentConfirmData × Store :=
  let intent_status := IntentStatus.Processing
  let attempt_status := AttemptStatus.Pending
  match get_required_value payment_data.payment_attempt.connector
      "connector" with
  | Except.error e => (Except.error e, store)
  | Except.ok connector =>
    match get_required_value payment_data.payment_attempt.merchant_connector_id
        "merchant_connector_id" with
    | Except.error e => (Except.error e, store)
    | Except.ok merchant_connector_id =>
      let payment_intent_update :=
        PaymentIntentUpdate.ConfirmIntent intent_status storage_scheme.toStr
      let payment_attempt_update :=
        PaymentAttemptUpdate.ConfirmIntent attempt_status
          storage_scheme.toStr connector merchant_connector_id
      let current_payment_intent := payment_data.payment_intent
      let (updated_payment_intent, store) :=
        store.update_payment_intent current_payment_intent
          payment_intent_update
      let payment_data :=
        { payment_data with payment_intent := updated_payment_intent }
      let current_payment_attempt := payment_data.payment_attempt
      let (updated_payment_attempt, store) :=
        store.update_payment_attempt current_payment_attempt
          payment_attempt_update
      let payment_data :=
        { payment_data with payment_attempt := updated_payment_attempt }
      (Except.ok payment_data, store)

end ConfirmIntent

namespace PaymentMethods

open ConfirmIntent (ApiErrorResponse)

/-- Payment methods (`api_models` enum, representative constructors). -/
inductive PaymentMethod where
  | card
  | wallet
  | bankTransfer
deriving DecidableEq, Repr

/-- Payment-method types (`api_models` enum, representative constructors). -/
inductive PaymentMethodType where
  | credit
  | debit
  | applePay
deriving DecidableEq, Repr

/-- `PaymentMethodCreate` in the non-`payment_methods_v2` build: both the
payment method and its type are optional request fields. -/
structure PaymentMethodCreate where
  payment_method : Option PaymentMethod
  payment_method_type : Option PaymentMethodType
deriving DecidableEq, Repr

/-- `PaymentMethodCreate` in the `payment_methods_v2` build: both fields are
mandatory. -/
structure PaymentMethodCreateV2 where
  payment_method : PaymentMethod
  payment_method_type : PaymentMethodType
deriving DecidableEq, Repr

/-- `PaymentMethodCreateExt::validate`, non-`payment_methods_v2` build: the
type/method compatibility check runs only when both optional fields are
present; either absent field skips it. The check itself
(`validate_payment_method_type_against_payment_method`, defined in the
payments helpers outside the shown sources) is abstracted as a parameter. -/
def validate (check : PaymentMethod → PaymentMethodType → Bool)
    (self : PaymentMethodCreate) : Except ApiErrorResponse Unit :=
  match self.payment_method with
  | some pm =>
    match self.payment_method_type with
    | some payment_method_type =>
      if ! check pm payment_method_type then
        Except.error (ApiErrorResponse.InvalidRequestData
          "Invalid 'payment_method_type' provided")
      else Except.ok ()
    | none => Except.ok ()
  | none => Except.ok ()

/-- `PaymentMethodCreateExt::validate`, `payment_methods_v2` build: the
compatibility check always runs on the mandatory fields. -/
def validateV2 (check : PaymentMethod → PaymentMethodType → Bool)
    (self : PaymentMethodCreateV2) : Except ApiErrorResponse Unit :=
  if ! check self.payment_method self.payment_method_type then
    Except.error (ApiErrorResponse.InvalidRequestData
      "Invalid 'payment_method_type' provided")
  else Except.ok ()

end PaymentMethods

namespace ConfirmIntent

/-- A concrete intent in `RequiresConfirmation` with order amount 1000 USD,
used to evaluate the theorems on explicit inputs. -/
def sampleIntent : PaymentIntent :=
  { id := "pi_1"
    merchant_id := "m_1"
    profile_id := "pr_1"
    organization_id := "org_1"
    amount_details := { order_amount := 1000, currency := "USD" }
    authentication_type := none
    status := IntentStatus.RequiresConfirmation
    updated_by := "postgres_only" }

/-- A concrete confirm request. -/
def sampleRequest : PaymentsConfirmIntentRequest :=
  { payment_method_type := some "card"
    payment_method_subtype := some "credit"
    payment_method_data := ⟨"pmd"⟩ }

/-- A concrete session state with cell id `cell1`. -/
def sampleState : SessionState :=
  { conf := ⟨⟨"cell1"⟩⟩, now := 0 }

/-- A concrete merchant account on the postgres-only scheme. -/
def sampleMerchant : MerchantAccount :=
  { id := "m_1", storage_scheme := MerchantStorageScheme.PostgresOnly }

/-- A concrete store holding `sampleIntent` and its profile. -/
def sampleStore : Store :=
  { intents := [("pi_1", sampleIntent)]
    attempts := []
    profiles := ["pr_1"]
    intent_update_log := []
    attempt_update_log := [] }

/-- The attempt the tracker stage builds on the sample inputs. -/
def sampleAttempt : PaymentAttempt :=
  create_domain_model_from_request sampleRequest sampleState sampleIntent
    MerchantStorageScheme.PostgresOnly

/-- An operation-data bundle whose attempt is still unrouted. -/
def sampleUnroutedData : PaymentConfirmData :=
  { payment_intent := sampleIntent
    payment_attempt := sampleAttempt
    payment_method_data := none }

/-- An operation-data bundle whose attempt has been routed. -/
def sampleRoutedData : PaymentConfirmData :=
  { payment_intent := sampleIntent
    payment_attempt :=
      { sampleAttempt with
          connector := some "stripe"
          merchant_connector_id := some "mca_1" }
    payment_method_data := none }

/-- A store holding no intents at all. -/
def emptyStore : Store :=
  { intents := []
    attempts := []
    profiles := []
    intent_update_log := []
    attempt_update_log := [] }

/-- The tracker-stage response on the sample inputs. -/
def sampleTrackerResp : GetTrackerResponse :=
  { customer_details := none
    payment_data :=
      { payment_intent := sampleIntent
        payment_attempt := sampleAttempt
        payment_method_data := some ⟨"pmd"⟩ }
    mandate_type := none }

/-- The sample store after the tracker stage's single insert. -/
def sampleStoreAfterInsert : Store :=
  { sampleStore with attempts := [sampleAttempt] }

/-- The bundle returned by a successful persist stage on the routed sample
data. -/
def sampleConfirmedData : PaymentConfirmData :=
  { payment_intent :=
      applyPaymentIntentUpdate sampleIntent
        (PaymentIntentUpdate.ConfirmIntent IntentStatus.Processing
          "postgres_only")
    payment_attempt :=
      applyPaymentAttemptUpdate sampleRoutedData.payment_attempt
        (PaymentAttemptUpdate.ConfirmIntent AttemptStatus.Pending
          "postgres_only" "stripe" "mca_1")
    payment_method_data := none }

/-- The sample store after a successful persist stage on the routed sample
data. -/
def sampleStoreAfterConfirm : Store :=
  ((sampleStore.update_payment_intent sampleIntent
      (PaymentIntentUpdate.ConfirmIntent IntentStatus.Processing
        "postgres_only")).2.update_payment_attempt
    sampleRoutedData.payment_attempt
    (PaymentAttemptUpdate.ConfirmIntent AttemptStatus.Pending
      "postgres_only" "stripe" "mca_1")).2

end ConfirmIntent

namespace ConfirmIntent

/-- C1: when the bundle's attempt has `connector = none` or
`merchant_connector_id = none`, the Confirm persist stage fails with a
required-value (`MissingRequiredField`) error and issues no storage call:
the store — in particular the persisted intent state — is unchanged. -/
theorem update_trackers_requires_routing_fields
    (store : Store) (payment_data : PaymentConfirmData)
    (storage_scheme : MerchantStorageScheme)
    (h : payment_data.payment_attempt.connector = none ∨
      payment_data.payment_attempt.merchant_connector_id = none) :
    (update_trackers store payment_data storage_scheme).2 = store ∧
    ((update_trackers store payment_data storage_scheme).1 =
        Except.error (ApiErrorResponse.MissingRequiredField "connector") ∨
      (update_trackers store payment_data storage_scheme).1 =
        Except.error
          (ApiErrorResponse.MissingRequiredField "merchant_connector_id")) := by
  cases hc : payment_data.payment_attempt.connector with
  | none =>
      simp [update_trackers, get_required_value, hc]
  | some c =>
      cases hm : payment_data.payment_attempt.merchant_connector_id with
      | none => simp [update_trackers, get_required_value, hc, hm]
      | some m =>
          rcases h with h | h
          · rw [hc] at h; simp at h
          · rw [hm] at h; simp at h

/-- Witness for C1: the persist stage on the unrouted sample bundle. -/
theorem update_trackers_requires_routing_fields_witness :
    (update_trackers sampleStore sampleUnroutedData
        MerchantStorageScheme.PostgresOnly).2 = sampleStore ∧
    ((update_trackers sampleStore sampleUnroutedData
        MerchantStorageScheme.PostgresOnly).1 =
        Except.error (ApiErrorResponse.MissingRequiredField "connector") ∨
      (update_trackers sampleStore sampleUnroutedData
        MerchantStorageScheme.PostgresOnly).1 =
        Except.error
          (ApiErrorResponse.MissingRequiredField "merchant_connector_id")) :=
  update_trackers_requires_routing_fields sampleStore sampleUnroutedData
    MerchantStorageScheme.PostgresOnly (Or.inl rfl)

/-- C2: attempts the Confirm variant produces are never half-routed — the
attempt built by the tracker stage has `connector` and
`merchant_connector_id` equally absent (both `none`), and any bundle
returned by a successful persist stage has both present. -/
theorem attempt_routing_atomicity
    (request : PaymentsConfirmIntentRequest) (state : SessionState)
    (intent : PaymentIntent) (scheme : MerchantStorageScheme)
    (store store' : Store) (payment_data pd' : PaymentConfirmData) :
    ((create_domain_model_from_request request state intent
        scheme).connector.isSome =
      (create_domain_model_from_request request state intent
        scheme).merchant_connector_id.isSome) ∧
    (update_trackers store payment_data scheme = (Except.ok pd', store') →
      pd'.payment_attempt.connector.isSome = true ∧
      pd'.payment_attempt.merchant_connector_id.isSome = true) := by
  constructor
  · rfl
  · intro h
    cases hc : payment_data.payment_attempt.connector with
    | none => simp [update_trackers, get_required_value, hc] at h
    | some c =>
      cases hm : payment_data.payment_attempt.merchant_connector_id with
      | none => simp [update_trackers, get_required_value, hc, hm] at h
      | some m =>
        simp [update_trackers, get_required_value, hc, hm,
          Store.update_payment_intent, Store.update_payment_attempt] at h
        obtain ⟨h1, _⟩ := h
        subst h1
        simp [applyPaymentAttemptUpdate]

/-- Witness for C2: the routed sample bundle through the persist stage. -/
theorem attempt_routing_atomicity_witness :
    sampleConfirmedData.payment_attempt.connector.isSome = true ∧
    sampleConfirmedData.payment_attempt.merchant_connector_id.isSome = true :=
  (attempt_routing_atomicity sampleRequest sampleState sampleIntent
    MerchantStorageScheme.PostgresOnly sampleStore sampleStoreAfterConfirm
    sampleRoutedData sampleConfirmedData).2 rfl

/-- C3: every successful Confirm persist run applies exactly a
`ConfirmIntent` intent delta with status `Processing` and a `ConfirmIntent`
attempt delta with status `Pending`, both tagged with the run's storage
scheme string, whatever the prior statuses were; the returned bundle holds
the post-update intent and attempt the storage layer returned. -/
theorem update_trackers_confirm_deltas
    (store store' : Store) (payment_data pd' : PaymentConfirmData)
    (scheme : MerchantStorageScheme) (c m : String)
    (hc : payment_data.payment_attempt.connector = some c)
    (hm : payment_data.payment_attempt.merchant_connector_id = some m)
    (hrun : update_trackers store payment_data scheme =
      (Except.ok pd', store')) :
    store'.intent_update_log =
      (payment_data.payment_intent,
        PaymentIntentUpdate.ConfirmIntent IntentStatus.Processing
          scheme.toStr) :: store.intent_update_log ∧
    store'.attempt_update_log =
      (payment_data.payment_attempt,
        PaymentAttemptUpdate.ConfirmIntent AttemptStatus.Pending scheme.toStr
          c m) :: store.attempt_update_log ∧
    pd'.payment_intent =
      (store.update_payment_intent payment_data.payment_intent
        (PaymentIntentUpdate.ConfirmIntent IntentStatus.Processing
          scheme.toStr)).1 ∧
    pd'.payment_attempt =
      ((store.update_payment_intent payment_data.payment_intent
          (PaymentIntentUpdate.ConfirmIntent IntentStatus.Processing
            scheme.toStr)).2.update_payment_attempt
        payment_data.payment_attempt
        (PaymentAttemptUpdate.ConfirmIntent AttemptStatus.Pending scheme.toStr
          c m)).1 := by
  simp only [update_trackers, get_required_value, hc, hm] at hrun
  simp only [Prod.mk.injEq, Except.ok.injEq] at hrun
  obtain ⟨h1, h2⟩ := hrun
  subst h1
  subst h2
  refine ⟨?_, ?_, rfl, rfl⟩ <;>
    simp [Store.update_payment_intent, Store.update_payment_attempt]

/-- Witness for C3: the routed sample bundle through the persist stage. -/
theorem update_trackers_confirm_deltas_witness :
    sampleStoreAfterConfirm.intent_update_log =
      (sampleRoutedData.payment_intent,
        PaymentIntentUpdate.ConfirmIntent IntentStatus.Processing
          (MerchantStorageScheme.PostgresOnly).toStr) ::
        sampleStore.intent_update_log ∧
    sampleStoreAfterConfirm.attempt_update_log =
      (sampleRoutedData.payment_attempt,
        PaymentAttemptUpdate.ConfirmIntent AttemptStatus.Pending
          (MerchantStorageScheme.PostgresOnly).toStr "stripe" "mca_1") ::
        sampleStore.attempt_update_log ∧
    sampleConfirmedData.payment_intent =
      (sampleStore.update_payment_intent sampleRoutedData.payment_intent
        (PaymentIntentUpdate.ConfirmIntent IntentStatus.Processing
          (MerchantStorageScheme.PostgresOnly).toStr)).1 ∧
    sampleConfirmedData.payment_attempt =
      ((sampleStore.update_payment_intent sampleRoutedData.payment_intent
          (PaymentIntentUpdate.ConfirmIntent IntentStatus.Processing
            (MerchantStorageScheme.PostgresOnly).toStr)).2.update_payment_attempt
        sampleRoutedData.payment_attempt
        (PaymentAttemptUpdate.ConfirmIntent AttemptStatus.Pending
          (MerchantStorageScheme.PostgresOnly).toStr "stripe" "mca_1")).1 :=
  update_trackers_confirm_deltas sampleStore sampleStoreAfterConfirm
    sampleRoutedData sampleConfirmedData MerchantStorageScheme.PostgresOnly
    "stripe" "mca_1" rfl rfl rfl

end ConfirmIntent

namespace ConfirmIntent

/-- C4: for every intent and Confirm request, the attempt built by the
tracker stage has status `Started`, no connector, no merchant-connector id,
and an id generated from the configured cell id. -/
theorem create_attempt_initial_state
    (request : PaymentsConfirmIntentRequest) (state : SessionState)
    (payment_intent : PaymentIntent) (scheme : MerchantStorageScheme) :
    (create_domain_model_from_request request state payment_intent
        scheme).status = AttemptStatus.Started ∧
    (create_domain_model_from_request request state payment_intent
        scheme).connector = none ∧
    (create_domain_model_from_request request state payment_intent
        scheme).merchant_connector_id = none ∧
    (create_domain_model_from_request request state payment_intent
        scheme).id = GlobalAttemptId.generate state.conf.cell_information.id :=
  ⟨rfl, rfl, rfl, rfl⟩

/-- C5: on a successful tracker stage, the new attempt's `net_amount`
equals the stored intent's order amount, the bundle carries the stored
intent unchanged (its amount details in particular), and the intents table
itself is untouched. -/
theorem confirm_attempt_net_amount
    (store store' : Store) (state : SessionState) (payment_id : String)
    (request : PaymentsConfirmIntentRequest)
    (merchant_account : MerchantAccount) (intent : PaymentIntent)
    (resp : GetTrackerResponse)
    (hfind : store.find_payment_intent_by_id payment_id = some intent)
    (hrun : get_trackers store state payment_id request merchant_account =
      (Except.ok resp, store')) :
    resp.payment_data.payment_attempt.amount_details.net_amount =
      intent.amount_details.order_amount ∧
    resp.payment_data.payment_intent = intent ∧
    store'.intents = store.intents := by
  simp only [get_trackers, hfind, Store.insert_payment_attempt] at hrun
  split at hrun
  · simp at hrun
  · simp only [Prod.mk.injEq, Except.ok.injEq] at hrun
    obtain ⟨h1, h2⟩ := hrun
    subst h1
    subst h2
    exact ⟨rfl, rfl, rfl⟩

/-- Witness for C5: the sample store holds the 1000-unit intent; the
tracker stage yields an attempt with `net_amount = 1000`. -/
theorem confirm_attempt_net_amount_witness :
    sampleTrackerResp.payment_data.payment_attempt.amount_details.net_amount =
      sampleIntent.amount_details.order_amount ∧
    sampleTrackerResp.payment_data.payment_intent = sampleIntent ∧
    sampleStoreAfterInsert.intents = sampleStore.intents :=
  confirm_attempt_net_amount sampleStore sampleStoreAfterInsert sampleState
    "pi_1" sampleRequest sampleMerchant sampleIntent sampleTrackerResp
    (by rfl) (by rfl)

/-- C6: the tracker stage fails with `PaymentNotFound` (and writes nothing)
when the intent is absent; when the intent exists it performs exactly one
unconditional insert — the new attempt — and issues no conditional update,
whatever the profile lookup then does. -/
theorem get_trackers_single_insert
    (store : Store) (state : SessionState) (payment_id : String)
    (request : PaymentsConfirmIntentRequest)
    (merchant_account : MerchantAccount) :
    (store.find_payment_intent_by_id payment_id = none →
      get_trackers store state payment_id request merchant_account =
        (Except.error ApiErrorResponse.PaymentNotFound, store)) ∧
    (∀ intent, store.find_payment_intent_by_id payment_id = some intent →
      (get_trackers store state payment_id request
          merchant_account).2.attempts =
        create_domain_model_from_request request state intent
          merchant_account.storage_scheme :: store.attempts ∧
      (get_trackers store state payment_id request
          merchant_account).2.intent_update_log = store.intent_update_log ∧
      (get_trackers store state payment_id request
          merchant_account).2.attempt_update_log =
        store.attempt_update_log) := by
  constructor
  · intro h
    simp [get_trackers, h]
  · intro intent h
    simp only [get_trackers, h, Store.insert_payment_attempt]
    split <;> exact ⟨rfl, rfl, rfl⟩

/-- Witness for C6: the empty store yields `PaymentNotFound`; the sample
store yields exactly one inserted attempt and untouched update logs. -/
theorem get_trackers_single_insert_witness :
    (get_trackers emptyStore sampleState "pi_1" sampleRequest
        sampleMerchant =
      (Except.error ApiErrorResponse.PaymentNotFound, emptyStore)) ∧
    ((get_trackers sampleStore sampleState "pi_1" sampleRequest
        sampleMerchant).2.attempts =
      create_domain_model_from_request sampleRequest sampleState sampleIntent
        sampleMerchant.storage_scheme :: sampleStore.attempts ∧
    (get_trackers sampleStore sampleState "pi_1" sampleRequest
        sampleMerchant).2.intent_update_log = sampleStore.intent_update_log ∧
    (get_trackers sampleStore sampleState "pi_1" sampleRequest
        sampleMerchant).2.attempt_update_log =
      sampleStore.attempt_update_log) :=
  ⟨(get_trackers_single_insert emptyStore sampleState "pi_1" sampleRequest
      sampleMerchant).1 (by rfl),
    (get_trackers_single_insert sampleStore sampleState "pi_1" sampleRequest
      sampleMerchant).2 sampleIntent (by rfl)⟩

/-- C7 counterexample: at a concrete input, `get_connector` on the Confirm
variant panics with "not yet implemented" (Rust `todo!()`); the failure is
a crash, not a returned internal-error value, refuting the claim that it is
"returned as an internal error … rather than … a crash". -/
theorem get_connector_counterexample :
    get_connector sampleRequest sampleIntent =
      ConnectorCallOutcome.panicked "not yet implemented" ∧
    (get_connector sampleRequest sampleIntent).isReturnedError = false :=
  ⟨rfl, rfl⟩

/-- C7 amended: invoking connector selection on the Confirm variant, for
any input, panics with the explicit "not yet implemented" message — an
explicit unimplemented-capability failure, not a silent no-op — and is not
returned as an error value. -/
theorem get_connector_not_yet_implemented
    (request : PaymentsConfirmIntentRequest)
    (payment_intent : PaymentIntent) :
    get_connector request payment_intent =
      ConnectorCallOutcome.panicked "not yet implemented" ∧
    (get_connector request payment_intent).isReturnedError = false :=
  ⟨rfl, rfl⟩

/-- C8: the Confirm validate stage always succeeds, passing through the
merchant account's id and storage scheme with `requeue = false`. -/
theorem validate_request_passthrough
    (request : PaymentsConfirmIntentRequest)
    (merchant_account : MerchantAccount) :
    validate_request request merchant_account =
      Except.ok
        { merchant_id := merchant_account.get_id
          storage_scheme := merchant_account.storage_scheme
          requeue := false } :=
  rfl

/-- C9: the Confirm domain-enrichment stage persists nothing:
`get_customer_details` returns no customer and `make_pm_data` returns no
payment-method data, and both leave the bundle and the store exactly as
given. -/
theorem domain_stage_no_persistence
    (payment_data : PaymentConfirmData) (store : Store) :
    get_customer_details payment_data store =
      Except.ok (payment_data, store, none) ∧
    make_pm_data payment_data store =
      Except.ok (payment_data, store, none, none) :=
  ⟨rfl, rfl⟩

end ConfirmIntent

namespace PaymentMethods

open ConfirmIntent (ApiErrorResponse)

/-- C10: in the non-`payment_methods_v2` build, `validate` returns `Ok`
whenever `payment_method` or `payment_method_type` is absent; it returns
the `InvalidRequestData` error exactly when both are present and the type
fails the compatibility check, and returns `Ok` when both are present and
the check passes; in the `payment_methods_v2` build the check is always
performed on the mandatory fields. -/
theorem payment_method_create_validate_spec
    (check : PaymentMethod → PaymentMethodType → Bool)
    (pm : Option PaymentMethod) (pmt : Option PaymentMethodType)
    (req2 : PaymentMethodCreateV2) :
    (pm = none ∨ pmt = none →
      validate check { payment_method := pm, payment_method_type := pmt } =
        Except.ok ()) ∧
    ((validate check { payment_method := pm, payment_method_type := pmt } =
        Except.error (ApiErrorResponse.InvalidRequestData
          "Invalid 'payment_method_type' provided")) ↔
      (∃ a b, pm = some a ∧ pmt = some b ∧ check a b = false)) ∧
    (∀ a b, pm = some a → pmt = some b → check a b = true →
      validate check { payment_method := pm, payment_method_type := pmt } =
        Except.ok ()) ∧
    (validateV2 check req2 = Except.ok () ↔
      check req2.payment_method req2.payment_method_type = true) := by
  refine ⟨?_, ?_, ?_, ?_⟩
  · rintro (h | h) <;> subst h
    · rfl
    · cases pm <;> rfl
  · cases pm with
    | none => simp [validate]
    | some a =>
      cases pmt with
      | none => simp [validate]
      | some b => cases hcb : check a b <;> simp [validate, hcb]
  · intro a b ha hb hcb
    subst ha
    subst hb
    simp [validate, hcb]
  · cases hcb : check req2.payment_method req2.payment_method_type <;>
      simp [validateV2, hcb]

/-- Witness for C10: with an always-failing check, an omitted
payment-method field still validates, while the v2 form rejects. -/
theorem payment_method_create_validate_spec_witness :
    validate (fun _ _ => false)
      { payment_method := none,
        payment_method_type := some PaymentMethodType.credit } =
      Except.ok () :=
  (payment_method_create_validate_spec (fun _ _ => false) none
    (some PaymentMethodType.credit)
    { payment_method := PaymentMethod.card,
      payment_method_type := PaymentMethodType.credit }).1 (Or.inl rfl)

end PaymentMethods
